import Mathlib

/-!
Verification of the furia BitTorrent client (src/main.rs, src/messages.rs,
src/parse_torrent.rs, src/tracker.rs) against its natural-language
specification.  Rust code is shallowly embedded: byte values are `Nat`
(< 256, with explicit `% 256` where u8 arithmetic wraps), byte buffers are
`List Nat`, fallible operations return `Except`.
-/

/-- Big-endian bytes of a u32 value, as produced by Rust `u32::to_be_bytes`. -/
def toBeBytes32 (n : Nat) : List Nat :=
  [n / 2 ^ 24 % 256, n / 2 ^ 16 % 256, n / 2 ^ 8 % 256, n % 256]

/-- Value of a 4-byte big-endian integer. -/
def be32 (b0 b1 b2 b3 : Nat) : Nat :=
  ((b0 * 256 + b1) * 256 + b2) * 256 + b3

/-- Value of the 4-byte big-endian length field that starts a wire frame,
or `none` if the buffer is shorter than 4 bytes. -/
def frameLenField : List Nat → Option Nat
  | b0 :: b1 :: b2 :: b3 :: _ => some (be32 b0 b1 b2 b3)
  | _ => none

/-- Embeds `MessageType` from src/messages.rs: a fieldless `repr(u8)` enum with
ten variants and no explicit discriminants. -/
inductive MessageType where
  | Choke
  | Unchoke
  | Interested
  | NotInterested
  | Have
  | Bitfield
  | Request
  | Piece
  | Cancel
  | Port
deriving DecidableEq, BEq

/-- The variants of `MessageType` in their declaration order in src/messages.rs. -/
def MessageType.variants : List MessageType :=
  [MessageType.Choke, MessageType.Unchoke, MessageType.Interested,
   MessageType.NotInterested, MessageType.Have, MessageType.Bitfield,
   MessageType.Request, MessageType.Piece, MessageType.Cancel, MessageType.Port]

/-- Embeds the Rust cast `MessageType::X as u8`: with `repr(u8)` and no explicit
discriminants, a variant's discriminant is its position in declaration order. -/
def MessageType.toU8 (t : MessageType) : Nat :=
  MessageType.variants.indexOf t

/-- Embeds `BLOCK_BYTES` from src/messages.rs line 5, written there as
`2 ^ 14`; Rust `^` on integers is bitwise XOR, not exponentiation. -/
def BLOCK_BYTES : Nat :=
  Nat.xor 2 14

/-- Embeds `File` from src/parse_torrent.rs. -/
structure FileEntry where
  path : List String
  length : Int
  md5sum : Option String
deriving DecidableEq

/-- Embeds `Info` from src/parse_torrent.rs; `pieces` is the raw byte buffer of
concatenated 20-byte piece hashes.  The Rust field `private` is a Lean keyword
and is embedded as `private_`. -/
structure Info where
  name : String
  pieces : List Nat
  piece_length : Int
  md5sum : Option String
  length : Option Int
  files : Option (List FileEntry)
  private_ : Option Nat
  path : Option (List String)
  root_hash : Option String
deriving DecidableEq

/-- Embeds `TorrentFile` from src/parse_torrent.rs (`Node(String, i64)` is
embedded as a pair). -/
structure TorrentFile where
  info : Info
  announce : String
  nodes : Option (List (String × Int))
  encoding : Option String
  httpseeds : Option (List String)
  announce_list : Option (List (List String))
  creation_date : Option Int
  comment : Option String
  created_by : Option String
deriving DecidableEq

/-- Modelled from the spec: the `Download` piece ledger lives in the `download`
module declared in src/main.rs but absent from src/.  Per spec section 3 the
ledger owns an aggregate local bitfield of completed pieces; only that datum is
relevant to the claims below, and `Message.bitfield` ignores its `download`
argument entirely. -/
structure Download where
  completed : List Bool
deriving DecidableEq

/-- Modelled from the spec: `bitfield_size` is imported by src/messages.rs from
the `parse_torrent` module but its definition is absent from src/.  Per spec
section 3, a bitfield holds one bit per piece, packed MSB-first and padded to a
whole byte, and piece_count equals the number of 20-byte hashes concatenated in
`pieces`; so the byte size is the ceiling of piece_count / 8. -/
def bitfield_size (torrent : TorrentFile) : Nat :=
  (torrent.info.pieces.length / 20 + 7) / 8

/-- Embeds `Message::choke` from src/messages.rs: a 0_u32 big-endian length
followed by the pushed id byte. -/
def Message.choke : List Nat :=
  toBeBytes32 0 ++ [MessageType.toU8 MessageType.Choke]

/-- Embeds `Message::unchoke` from src/messages.rs. -/
def Message.unchoke : List Nat :=
  toBeBytes32 1 ++ [MessageType.toU8 MessageType.Unchoke]

/-- Embeds `Message::interested` from src/messages.rs. -/
def Message.interested : List Nat :=
  toBeBytes32 1 ++ [MessageType.toU8 MessageType.Interested]

/-- Embeds `Message::not_interested` from src/messages.rs. -/
def Message.not_interested : List Nat :=
  toBeBytes32 1 ++ [MessageType.toU8 MessageType.NotInterested]

/-- Embeds `Message::bitfield` from src/messages.rs: length field is
`bitfield_size as u32 + 1` (u32 wrap-around made explicit), then the id byte,
then `len as usize * 4` zero bytes; the `download` argument is unused by the
source function. -/
def Message.bitfield (torrent : TorrentFile) (download : Download) : List Nat :=
  let bs := bitfield_size torrent
  let len := (bs % 2 ^ 32 + 1) % 2 ^ 32
  toBeBytes32 len ++ [MessageType.toU8 MessageType.Bitfield] ++ List.replicate (len * 4) 0

/-- Embeds `Message::request` from src/messages.rs: both arguments are u8; the
body pushes a 13_u32 big-endian length, the id byte, then three single bytes:
`piece_index`, `piece_offset * BLOCK_BYTES` (u8 multiplication, wrapping mod
256) and `BLOCK_BYTES`. -/
def Message.request (piece_index piece_offset : Nat) : List Nat :=
  toBeBytes32 13 ++ [MessageType.toU8 MessageType.Request,
    piece_index % 256, piece_offset % 256 * BLOCK_BYTES % 256, BLOCK_BYTES]

/-- Embeds `Peer` from src/tracker.rs. -/
structure Peer where
  peer_id : Option String
  ip : String
  port : Int
deriving DecidableEq

/-- Embeds the chunk loop of `peer_list::deserialize` in src/tracker.rs: each
complete 6-byte chunk yields one peer with dotted-quad ip from bytes 0-3 and
`(chunk[4] as i64) << 8 | chunk[5] as i64` as port; a trailing chunk shorter
than 6 bytes is skipped. -/
def peersFromBytes : List Nat → List Peer
  | b0 :: b1 :: b2 :: b3 :: b4 :: b5 :: rest =>
    { peer_id := none,
      ip := toString b0 ++ "." ++ toString b1 ++ "." ++ toString b2 ++ "." ++ toString b3,
      port := Int.ofNat (b4 <<< 8 ||| b5) } :: peersFromBytes rest
  | _ => []

/-- Embeds `peer_list::deserialize` from src/tracker.rs: the compact peer blob
is deserialized as `ByteArray<6>`, a serde_bytes fixed-length byte array that
accepts exactly 6 bytes and rejects every other length; the chunks(6) loop then
runs over those 6 bytes. -/
def peerListDeserialize (bytes : List Nat) : Except String (List Peer) :=
  if bytes.length = 6 then
    Except.ok (peersFromBytes bytes)
  else
    Except.error "invalid length, expected a byte array of length 6"

/-- Embeds `TrackerResponse` from src/tracker.rs. -/
structure TrackerResponse where
  failure_reason : Option Bool
  warning_message : Option Bool
  interval : Nat
  tracker_id : Option String
  complete : Nat
  incomplete : Nat
  peers : List Peer
deriving DecidableEq

/-- Outcome of one run of `main` from src/main.rs.  `usage` is the early
return printing the usage line; `parsePanic` models the `expect` aborts inside
`parse_torrent`; `trackerErr` is an `Err` of `request_tracker` propagated by
`?`; `indexPanic` is the out-of-bounds abort of `tracker_response.peers[0]`;
`sessions p` means execution reached `add_peer(p)` and `connect_to_peers`. -/
inductive MainOutcome where
  | usage
  | parsePanic
  | trackerErr (e : String)
  | indexPanic
  | sessions (p : Peer)
deriving DecidableEq

/-- Embeds `main` from src/main.rs with the process environment abstracted:
`args` is the argv vector, `parsed` the result of `parse_torrent` (`none`
models its `expect` abort), `tracker` the result of `request_tracker`. -/
def mainRun (args : List String) (parsed : Option TorrentFile)
    (tracker : Except String TrackerResponse) : MainOutcome :=
  if args.length < 2 then
    MainOutcome.usage
  else
    match parsed with
    | none => MainOutcome.parsePanic
    | some _ =>
      match tracker with
      | Except.error e => MainOutcome.trackerErr e
      | Except.ok r =>
        match r.peers with
        | [] => MainOutcome.indexPanic
        | p :: _ => MainOutcome.sessions p

/-- Decoded wire messages, one constructor per id of the spec's table in
section 4.1 plus the keep-alive. -/
inductive DecodedMessage where
  | keepAlive
  | choke
  | unchoke
  | interested
  | notInterested
  | haveMsg (piece_index : Nat)
  | bitfieldMsg (bits : List Nat)
  | requestMsg (piece_index block_offset block_length : Nat)
  | pieceMsg (piece_index block_offset : Nat) (block : List Nat)
  | cancelMsg (piece_index block_offset block_length : Nat)
  | portMsg (p : Nat)
deriving DecidableEq

/-- Decode failures named in spec section 4.1. -/
inductive DecodeError where
  | TruncatedFrame
  | UnknownMessageId
  | PayloadLengthMismatch
deriving DecidableEq

/-- Modelled from the spec: src/ contains no frame decoder, so this follows
section 4.1 word for word: read a 4-byte big-endian length field; length 0 is a
keep-alive with no id byte and no payload; otherwise read exactly that many
bytes (id byte plus payload), failing with `TruncatedFrame` if the buffer ends
mid-frame, `UnknownMessageId` for an id outside 0-9, `PayloadLengthMismatch`
when a fixed-payload message's length disagrees with its expected payload size.
Returns the decoded message and the unconsumed remainder of the buffer. -/
def decodeFrame (s : List Nat) : Except DecodeError (DecodedMessage × List Nat) :=
  match s with
  | b0 :: b1 :: b2 :: b3 :: rest =>
    let len := be32 b0 b1 b2 b3
    if len = 0 then Except.ok (DecodedMessage.keepAlive, rest)
    else if rest.length < len then Except.error DecodeError.TruncatedFrame
    else
      match rest.take len with
      | [] => Except.error DecodeError.TruncatedFrame
      | mid :: payload =>
        let after := rest.drop len
        if mid = 0 then
          if payload.length = 0 then Except.ok (DecodedMessage.choke, after)
          else Except.error DecodeError.PayloadLengthMismatch
        else if mid = 1 then
          if payload.length = 0 then Except.ok (DecodedMessage.unchoke, after)
          else Except.error DecodeError.PayloadLengthMismatch
        else if mid = 2 then
          if payload.length = 0 then Except.ok (DecodedMessage.interested, after)
          else Except.error DecodeError.PayloadLengthMismatch
        else if mid = 3 then
          if payload.length = 0 then Except.ok (DecodedMessage.notInterested, after)
          else Except.error DecodeError.PayloadLengthMismatch
        else if mid = 4 then
          match payload with
          | [a, b, c, d] => Except.ok (DecodedMessage.haveMsg (be32 a b c d), after)
          | _ => Except.error DecodeError.PayloadLengthMismatch
        else if mid = 5 then
          Except.ok (DecodedMessage.bitfieldMsg payload, after)
        else if mid = 6 then
          match payload with
          | [a, b, c, d, e, f, g, h, i, j, k, l] =>
            Except.ok (DecodedMessage.requestMsg (be32 a b c d) (be32 e f g h) (be32 i j k l), after)
          | _ => Except.error DecodeError.PayloadLengthMismatch
        else if mid = 7 then
          match payload with
          | a :: b :: c :: d :: e :: f :: g :: h :: block =>
            Except.ok (DecodedMessage.pieceMsg (be32 a b c d) (be32 e f g h) block, after)
          | _ => Except.error DecodeError.PayloadLengthMismatch
        else if mid = 8 then
          match payload with
          | [a, b, c, d, e, f, g, h, i, j, k, l] =>
            Except.ok (DecodedMessage.cancelMsg (be32 a b c d) (be32 e f g h) (be32 i j k l), after)
          | _ => Except.error DecodeError.PayloadLengthMismatch
        else if mid = 9 then
          match payload with
          | [a, b] => Except.ok (DecodedMessage.portMsg (a * 256 + b), after)
          | _ => Except.error DecodeError.PayloadLengthMismatch
        else Except.error DecodeError.UnknownMessageId
  | _ => Except.error DecodeError.TruncatedFrame

/-- A one-piece torrent (one 20-byte hash in `pieces`) used as a concrete
evaluation point. -/
def sampleInfo : Info :=
  { name := "t"
    pieces := List.replicate 20 0
    piece_length := 16
    md5sum := none
    length := some 16
    files := none
    private_ := none
    path := none
    root_hash := none }

/-- Concrete torrent built on `sampleInfo`. -/
def sampleTorrent : TorrentFile :=
  { info := sampleInfo
    announce := "http://tracker.example/announce"
    nodes := none
    encoding := none
    httpseeds := none
    announce_list := none
    creation_date := none
    comment := none
    created_by := none }

/-- Concrete download state in which the single piece is complete. -/
def sampleDownload : Download :=
  { completed := [true] }

/-- Concrete tracker response whose peer list comes from a 6-byte compact
blob. -/
def sampleResponse : TrackerResponse :=
  { failure_reason := none
    warning_message := none
    interval := 900
    tracker_id := none
    complete := 0
    incomplete := 1
    peers := peersFromBytes [127, 0, 0, 1, 31, 144] }

/-- Bitwise or with a left operand shifted past the right operand is addition:
`a * 2 ^ k ||| b = a * 2 ^ k + b` whenever `b < 2 ^ k`. -/
theorem mul_pow_lor_eq_add : ∀ (k a b : Nat), b < 2 ^ k → a * 2 ^ k ||| b = a * 2 ^ k + b := by
  intro k
  induction k with
  | zero =>
    intro a b hb
    have hb0 : b = 0 := by omega
    subst hb0
    simp
  | succ k ih =>
    intro a b hb
    have hp : 2 ^ (k + 1) = 2 * 2 ^ k := by ring
    have hv := Nat.bodd_add_div2 b
    have h1 : a * 2 ^ (k + 1) = Nat.bit false (a * 2 ^ k) := by
      rw [Nat.bit_val, hp, Nat.mul_left_comm]
      simp
    have h2 : b = Nat.bit b.bodd b.div2 := (Nat.bit_decomp b).symm
    have hdiv : b.div2 < 2 ^ k := by omega
    calc a * 2 ^ (k + 1) ||| b
        = Nat.bit false (a * 2 ^ k) ||| Nat.bit b.bodd b.div2 := by rw [← h1, ← h2]
      _ = Nat.bit (false || b.bodd) (a * 2 ^ k ||| b.div2) := Nat.lor_bit _ _ _ _
      _ = Nat.bit b.bodd (a * 2 ^ k + b.div2) := by rw [Bool.false_or, ih a b.div2 hdiv]
      _ = a * 2 ^ (k + 1) + b := by
          clear h1 h2
          rw [Nat.bit_val, hp, Nat.mul_left_comm]
          omega

/-- Specialization to one byte: `b4 <<< 8 ||| b5 = b4 * 256 + b5` for `b5 < 256`. -/
theorem shiftLeft8_lor_eq_add (b4 b5 : Nat) (h : b5 < 256) : b4 <<< 8 ||| b5 = b4 * 256 + b5 := by
  rw [Nat.shiftLeft_eq]
  exact mul_pow_lor_eq_add 8 b4 b5 h

/-- A list of length 6 is literally six elements. -/
theorem length_eq_six_shape (l : List Nat) (h : l.length = 6) :
    ∃ b0 b1 b2 b3 b4 b5, l = [b0, b1, b2, b3, b4, b5] := by
  rcases l with _ | ⟨b0, l⟩
  · simp at h
  rcases l with _ | ⟨b1, l⟩
  · simp at h
  rcases l with _ | ⟨b2, l⟩
  · simp at h
  rcases l with _ | ⟨b3, l⟩
  · simp at h
  rcases l with _ | ⟨b4, l⟩
  · simp at h
  rcases l with _ | ⟨b5, l⟩
  · simp at h
  rcases l with _ | ⟨b6, l⟩
  · exact ⟨b0, b1, b2, b3, b4, b5, rfl⟩
  · simp at h

/-- Claim C1: refuted as stated. `Message.request 0 0` is the 8-byte frame
[0, 0, 0, 13, 6, 0, 0, 12] — the piece index, block offset and block length are
emitted as single bytes — not a 17-byte frame with three 4-byte big-endian
fields after the id byte. -/
theorem request_frame_is_eight_bytes :
    Message.request 0 0 = [0, 0, 0, 13, 6, 0, 0, 12] ∧
    (Message.request 0 0).length = 8 ∧
    (Message.request 0 0).length ≠ 17 := by
  decide

/-- Claim C2: refuted as stated. The self-framing invariant (length field =
number of bytes after it) fails for `Message.choke`, whose length field is 0
while 1 byte follows, and for `Message.request`, whose length field is 13 while
4 bytes follow. -/
theorem length_field_not_self_framing :
    frameLenField Message.choke = some 0 ∧
    Message.choke.length = 5 ∧
    Message.choke.length ≠ 4 + 0 ∧
    frameLenField (Message.request 1 2) = some 13 ∧
    (Message.request 1 2).length = 8 ∧
    (Message.request 1 2).length ≠ 4 + 13 := by
  decide

/-- Claim C3: refuted as stated. The round-trip `decode (encode m) = m` fails
already for the choke message: its encoding carries length field 0, so a
decoder conforming to spec section 4.1 reads it as a keep-alive, leaving the id
byte behind as garbage. -/
theorem choke_does_not_round_trip :
    decodeFrame Message.choke = Except.ok (DecodedMessage.keepAlive, [0]) ∧
    DecodedMessage.keepAlive ≠ DecodedMessage.choke :=
  ⟨rfl, by decide⟩

/-- Claim C4: refuted as stated. On a one-piece torrent the bitfield frame's
length field is bitfield_size + 1 = 2 and the id byte is 5 as claimed, but the
payload is (bitfield_size + 1) * 4 = 8 zero bytes instead of exactly
bitfield_size = 1 byte, and the download state is ignored: the frame is
identical whether the piece is complete or not. -/
theorem bitfield_frame_wrong_payload :
    bitfield_size sampleTorrent = 1 ∧
    Message.bitfield sampleTorrent sampleDownload = [0, 0, 0, 2, 5, 0, 0, 0, 0, 0, 0, 0, 0] ∧
    (Message.bitfield sampleTorrent sampleDownload).length ≠ 4 + 1 + bitfield_size sampleTorrent ∧
    Message.bitfield sampleTorrent { completed := [false] } =
      Message.bitfield sampleTorrent sampleDownload := by
  decide

/-- Claim C5: refuted as stated. `Message.choke` is encoded as
[0, 0, 0, 0, 0]: a length field of 0 — which section 4.1 reserves for the
keep-alive — followed by the id byte, not the claimed length field 1 followed
by id byte 0. -/
theorem choke_encoded_with_zero_length_field :
    Message.choke = [0, 0, 0, 0, 0] ∧
    frameLenField Message.choke = some 0 ∧
    Message.choke ≠ [0, 0, 0, 1, 0] := by
  decide

/-- Claim C6: confirmed. The `MessageType` discriminants, cast to u8, are
exactly the id values of the spec's table: choke 0, unchoke 1, interested 2,
not_interested 3, have 4, bitfield 5, request 6, piece 7, cancel 8, port 9. -/
theorem message_type_ids_match_table :
    MessageType.toU8 MessageType.Choke = 0 ∧
    MessageType.toU8 MessageType.Unchoke = 1 ∧
    MessageType.toU8 MessageType.Interested = 2 ∧
    MessageType.toU8 MessageType.NotInterested = 3 ∧
    MessageType.toU8 MessageType.Have = 4 ∧
    MessageType.toU8 MessageType.Bitfield = 5 ∧
    MessageType.toU8 MessageType.Request = 6 ∧
    MessageType.toU8 MessageType.Piece = 7 ∧
    MessageType.toU8 MessageType.Cancel = 8 ∧
    MessageType.toU8 MessageType.Port = 9 := by
  decide

/-- Claim C7: confirmed. `BLOCK_BYTES`, written `2 ^ 14` in Rust where `^` is
XOR, equals 12; for every piece_offset the block-length byte (index 7) of
`Message.request` is 12, the offset byte (index 6) is piece_offset * 12
wrapping mod 256, and the u8 product overflows exactly when
piece_offset ≥ 22. -/
theorem block_bytes_is_twelve (piece_index piece_offset : Nat)
    (ho : piece_offset < 256) :
    BLOCK_BYTES = 12 ∧
    (Message.request piece_index piece_offset)[7]? = some 12 ∧
    (Message.request piece_index piece_offset)[6]? = some (piece_offset * 12 % 256) ∧
    (256 ≤ piece_offset * 12 ↔ 22 ≤ piece_offset) := by
  have hB : BLOCK_BYTES = 12 := by decide
  have h6 : MessageType.toU8 MessageType.Request = 6 := by decide
  have hmod : piece_offset % 256 = piece_offset := Nat.mod_eq_of_lt ho
  have hlist : Message.request piece_index piece_offset =
      [0, 0, 0, 13, 6, piece_index % 256, piece_offset * 12 % 256, 12] := by
    simp [Message.request, toBeBytes32, hB, h6, hmod]
  refine ⟨hB, ?_, ?_, by omega⟩
  · rw [hlist]
    rfl
  · rw [hlist]
    rfl

/-- Witness for claim C7 at piece_offset = 22, the first offset whose u8
product wraps. -/
theorem block_bytes_is_twelve_witness :
    BLOCK_BYTES = 12 ∧
    (Message.request 0 22)[7]? = some 12 ∧
    (Message.request 0 22)[6]? = some (22 * 12 % 256) ∧
    (256 ≤ 22 * 12 ↔ 22 ≤ 22) :=
  block_bytes_is_twelve 0 22 (by decide)

/-- Claim C8: confirmed. A successfully deserialized peers field always holds
exactly one peer, so `peers[0]` in `main` is in bounds; an empty compact blob
does not deserialize at all, so a tracker response with an empty peer list is
never constructed, and a tracker error is propagated before any session is
created — `main` never reaches the out-of-bounds abort. -/
theorem empty_peer_list_fails_fast (args : List String) (t : TorrentFile)
    (blob : List Nat) (r : TrackerResponse)
    (hdec : peerListDeserialize blob = Except.ok r.peers) :
    r.peers.length = 1 ∧
    (∀ ps, peerListDeserialize [] = Except.ok ps → False) ∧
    (∀ e, mainRun args (some t) (Except.error e) ≠ MainOutcome.indexPanic) ∧
    mainRun args (some t) (Except.ok r) ≠ MainOutcome.indexPanic := by
  have hlen : blob.length = 6 := by
    by_contra hne
    simp [peerListDeserialize, hne] at hdec
  have hps : r.peers = peersFromBytes blob := by
    simp [peerListDeserialize, hlen] at hdec
    exact hdec.symm
  obtain ⟨b0, b1, b2, b3, b4, b5, rfl⟩ := length_eq_six_shape blob hlen
  have h1 : r.peers.length = 1 := by
    rw [hps]
    rfl
  refine ⟨h1, ?_, ?_, ?_⟩
  · intro ps hcontr
    simp [peerListDeserialize] at hcontr
  · intro e
    unfold mainRun
    split
    · simp
    · simp
  · unfold mainRun
    split
    · simp
    · rcases hr : r.peers with _ | ⟨p, rest⟩
      · rw [hr] at h1
        simp at h1
      · simp [hr]

/-- Witness for claim C8 at a concrete 6-byte compact blob and the tracker
response built from it. -/
theorem empty_peer_list_fails_fast_witness :
    sampleResponse.peers.length = 1 ∧
    (∀ ps, peerListDeserialize [] = Except.ok ps → False) ∧
    (∀ e, mainRun ["furia", "file.torrent"] (some sampleTorrent) (Except.error e) ≠
      MainOutcome.indexPanic) ∧
    mainRun ["furia", "file.torrent"] (some sampleTorrent) (Except.ok sampleResponse) ≠
      MainOutcome.indexPanic :=
  empty_peer_list_fails_fast ["furia", "file.torrent"] sampleTorrent
    [127, 0, 0, 1, 31, 144] sampleResponse rfl

/-- Claim C9: confirmed. `peer_list::deserialize` succeeds exactly on 6-byte
blobs; on success it returns one peer whose ip is the dotted-quad of bytes 0-3
and whose port is byte4 * 256 + byte5; any blob of 12 or more bytes fails. -/
theorem peer_list_deserialize_exactly_six (blob : List Nat)
    (hbytes : ∀ x ∈ blob, x < 256) :
    ((peerListDeserialize blob).isOk = true ↔ blob.length = 6) ∧
    (∀ b0 b1 b2 b3 b4 b5, blob = [b0, b1, b2, b3, b4, b5] →
      peerListDeserialize blob = Except.ok
        [{ peer_id := none,
           ip := toString b0 ++ "." ++ toString b1 ++ "." ++ toString b2 ++ "." ++ toString b3,
           port := Int.ofNat (b4 * 256 + b5) }]) ∧
    (12 ≤ blob.length → (peerListDeserialize blob).isOk = false) := by
  refine ⟨?_, ?_, ?_⟩
  · constructor
    · intro hok
      by_contra hne
      simp [peerListDeserialize, hne, Except.isOk, Except.toBool] at hok
    · intro h6
      simp [peerListDeserialize, h6, Except.isOk, Except.toBool]
  · rintro b0 b1 b2 b3 b4 b5 rfl
    have hb5 : b5 < 256 := hbytes b5 (by simp)
    have hport : b4 <<< 8 ||| b5 = b4 * 256 + b5 := shiftLeft8_lor_eq_add b4 b5 hb5
    simp [peerListDeserialize, peersFromBytes, hport]
  · intro h12
    have hne : ¬ blob.length = 6 := by omega
    simp [peerListDeserialize, hne, Except.isOk, Except.toBool]

/-- Witness for claim C9 at the concrete blob [10, 0, 0, 1, 1, 200]. -/
theorem peer_list_deserialize_exactly_six_witness :
    (peerListDeserialize [10, 0, 0, 1, 1, 200]).isOk = true :=
  ((peer_list_deserialize_exactly_six [10, 0, 0, 1, 1, 200] (by decide)).1).mpr (by decide)

/-- Claim C10: confirmed. With fewer than two argv entries, `main` prints the
usage line and returns Ok: the run ends in the `usage` outcome, which is
neither a session launch nor a tracker interaction, whatever the environment
would have answered. -/
theorem missing_arg_prints_usage (args : List String) (parsed : Option TorrentFile)
    (tracker : Except String TrackerResponse) (h : args.length < 2) :
    mainRun args parsed tracker = MainOutcome.usage ∧
    (∀ p, mainRun args parsed tracker ≠ MainOutcome.sessions p) ∧
    (∀ e, mainRun args parsed tracker ≠ MainOutcome.trackerErr e) := by
  have hu : mainRun args parsed tracker = MainOutcome.usage := by
    unfold mainRun
    simp [h]
  refine ⟨hu, ?_, ?_⟩
  · intro p
    rw [hu]
    simp
  · intro e
    rw [hu]
    simp

/-- Witness for claim C10 with only the program name in argv. -/
theorem missing_arg_prints_usage_witness :
    mainRun ["furia"] none (Except.error "connection refused") = MainOutcome.usage :=
  (missing_arg_prints_usage ["furia"] none (Except.error "connection refused") (by decide)).1
